import Mathlib

/-!
Verification of the eyekit drift-correction engine (`eyekit/tools.py`).

The source file under verification is `tools.py`, which contains the
correction orchestrator (`snap_to_lines`), the bounds filter
(`discard_out_of_bounds_fixations`) and the DTW distance metric
(`fixation_sequence_distance`).  Its collaborators — the
`FixationSequence` and `TextBlock` containers, the `_core.distance`
primitive and the `_drift` algorithm module — are not part of the
provided source and are modelled from the specification, as marked in
the individual doc comments.
-/

namespace Eyekit

/-- Modelled from the spec: a Fixation is a point in time with a 2D
spatial position `(x, y)`, a duration, and a boolean `discarded` flag
(`fixation.py` is not in the provided source). -/
structure Fixation where
  x : ℤ
  y : ℤ
  duration : ℕ
  discarded : Bool
deriving DecidableEq

/-- Modelled from the spec: a FixationSequence is an ordered collection of
Fixations; chronological order is the list order (`fixation.py` is not in
the provided source). -/
structure FixationSequence where
  fixations : List Fixation
deriving DecidableEq

/-- Modelled from the spec: iterating over a `FixationSequence` yields its
fixations in chronological order, skipping the soft-deleted (discarded)
items: the correction data flow extracts coordinates "excluding
already-discarded fixations" and zips them back with "original durations",
which requires iteration and extraction to agree on the items visited
(`fixation.py` is not in the provided source). -/
def FixationSequence.iter (s : FixationSequence) : List Fixation :=
  s.fixations.filter (fun f => !f.discarded)

/-- Modelled from the spec: extract the array of `(x, y)` pairs of a
sequence, optionally excluding discarded items
(`fixation.py` is not in the provided source). -/
def FixationSequence.XYarray (s : FixationSequence) (include_discards : Bool) :
    List (ℤ × ℤ) :=
  (if include_discards then s.fixations else s.iter).map (fun f => (f.x, f.y))

/-- Modelled from the spec: a TextBlock is a fixed geometric description of
a text block — an ordered list of line y-positions (one per row, strictly
increasing top to bottom), word-center coordinates in reading order, and
character-center coordinates; iterating over a TextBlock yields its
characters (`text.py` is not in the provided source).  Only the character
centers are relevant to the engine, so a character is modelled by its
center point. -/
structure TextBlock where
  line_positions : List ℤ
  word_centers : List (ℤ × ℤ)
  char_centers : List (ℤ × ℤ)
deriving DecidableEq

/-- Modelled from the spec: the count of rows of a text block, one row per
line y-position (`text.py` is not in the provided source). -/
def TextBlock.n_rows (t : TextBlock) : ℕ :=
  t.line_positions.length

/-- Squared Euclidean distance between two integer points. -/
def sqDist (p q : ℤ × ℤ) : ℤ :=
  (p.1 - q.1) ^ 2 + (p.2 - q.2) ^ 2

/-- Modelled from the spec: the `_core.distance` primitive — the Euclidean
distance between two points in the plane (`_core` is not in the provided
source). -/
noncomputable def distance (p q : ℤ × ℤ) : ℝ :=
  Real.sqrt ((sqDist p q : ℤ) : ℝ)

/-- `farB p q t` is the executable rendering of the comparison
`distance p q > t` for a nonnegative threshold `t`, via squared
distances; `distance_gt_iff_farB` proves the two agree. -/
def farB (p q : ℤ × ℤ) (t : ℕ) : Bool :=
  decide ((t : ℤ) * t < sqDist p q)

theorem sqDist_nonneg (p q : ℤ × ℤ) : 0 ≤ sqDist p q := by
  have h1 : (0 : ℤ) ≤ (p.1 - q.1) ^ 2 := sq_nonneg _
  have h2 : (0 : ℤ) ≤ (p.2 - q.2) ^ 2 := sq_nonneg _
  simpa [sqDist] using add_nonneg h1 h2

theorem sqDist_comm (p q : ℤ × ℤ) : sqDist p q = sqDist q p := by
  simp only [sqDist]
  ring

/-- The executable comparison agrees with the Euclidean one: for a
nonnegative threshold `t`, `distance p q > t` iff `farB p q t`. -/
theorem distance_gt_iff_farB (p q : ℤ × ℤ) (t : ℕ) :
    (t : ℝ) < distance p q ↔ farB p q t = true := by
  have hs : (0 : ℝ) ≤ ((sqDist p q : ℤ) : ℝ) := by
    exact_mod_cast sqDist_nonneg p q
  have ht : (0 : ℝ) ≤ (t : ℝ) := Nat.cast_nonneg t
  constructor
  · intro h
    have h2 : ((t : ℝ)) ^ 2 < ((sqDist p q : ℤ) : ℝ) := by
      have := (Real.lt_sqrt ht).mp h
      simpa [distance] using this
    have h3 : ((t : ℤ) * t : ℤ) < sqDist p q := by
      have : ((t : ℝ)) * t < ((sqDist p q : ℤ) : ℝ) := by nlinarith
      exact_mod_cast this
    simpa [farB] using h3
  · intro h
    have h3 : ((t : ℤ) * t : ℤ) < sqDist p q := by simpa [farB] using h
    have h2 : ((t : ℝ)) ^ 2 < ((sqDist p q : ℤ) : ℝ) := by
      have : ((t : ℝ)) * t < ((sqDist p q : ℤ) : ℝ) := by exact_mod_cast h3
      nlinarith
    have := (Real.lt_sqrt ht).mpr h2
    simpa [distance] using this

/-- Translation of `tools.discard_out_of_bounds_fixations` (source lines
57–64), state-passing: the Python function mutates the sequence in place,
so the model returns the updated sequence.  For each fixation visited by
iteration, the inner loop sets `discarded = True` as soon as SOME
character center lies farther than `threshold` from the fixation (the
source compares `_distance(fixation.xy, char.center) > threshold` inside
the loop over all characters, with no minimum taken).  `discardStep` is
the body of the outer loop for one fixation; fixations already discarded
are skipped by iteration and left as they are. -/
def discardStep (tb : TextBlock) (threshold : ℕ) (f : Fixation) : Fixation :=
  if f.discarded then f
  else if tb.char_centers.any (fun c => farB (f.x, f.y) c threshold) then
    { f with discarded := true }
  else f

/-- The outer loop of `tools.discard_out_of_bounds_fixations`: apply
`discardStep` to every fixation of the sequence; the in-place mutation is
rendered by returning the updated sequence. -/
def discard_out_of_bounds_fixations (fs : FixationSequence) (tb : TextBlock)
    (threshold : ℕ) : FixationSequence :=
  ⟨fs.fixations.map (discardStep tb threshold)⟩

/-- The bounds filter as the spec describes it: flag a fixation exactly
when its minimum distance to any character center exceeds the threshold,
i.e. when EVERY character center is farther than `threshold`.  Stated from
the spec's words for comparison with the translation of the source. -/
def discard_out_of_bounds_fixations_spec (fs : FixationSequence)
    (tb : TextBlock) (threshold : ℕ) : FixationSequence :=
  ⟨fs.fixations.map (fun f =>
    if f.discarded then f
    else if tb.char_centers.all (fun c => farB (f.x, f.y) c threshold) then
      { f with discarded := true }
    else f)⟩

/-- Modelled from the spec: the kind of error an entry point surfaces —
the taxonomy distinguishes type errors (wrong collaborator type) and
value errors (unrecognized method name, invalid input). -/
inductive PyError where
  | typeError (msg : String)
  | valueError (msg : String)
deriving DecidableEq

/-- Modelled from the spec: dynamic time warping on two ordered point
sequences, generic in the local cost — the classic dynamic program in
which each cell combines the local cost of the aligned pair with the
minimum over the three predecessor cells, the boundary row and column are
initialized cumulatively, and an empty sequence cannot be aligned with a
nonempty one (cost `⊤`).  Aligning two empty sequences costs `0`; the
entry point rejects that case before calling this (`_drift` is not in the
provided source). -/
noncomputable def dtw {α : Type} (c : α → α → ENNReal) :
    List α → List α → ENNReal
  | [], [] => 0
  | [], _ :: _ => ⊤
  | _ :: _, [] => ⊤
  | a :: as, b :: bs =>
      c a b + min (dtw c as bs) (min (dtw c (a :: as) bs) (dtw c as (b :: bs)))
termination_by l1 l2 => l1.length + l2.length
decreasing_by all_goals simp [List.length_cons] <;> omega

/-- Modelled from the spec: the local DTW cost is the Euclidean distance
primitive, as a point of the extended nonnegative reals. -/
noncomputable def pointCost (p q : ℤ × ℤ) : ENNReal :=
  ENNReal.ofReal (distance p q)

/-- Modelled from the spec: `_drift._dynamic_time_warping` returns the
total alignment cost of two coordinate arrays (the optimal path is
internal and not part of the distance-metric contract); two empty
sequences are invalid input and fail with a validation error (`_drift` is
not in the provided source). -/
noncomputable def dynamic_time_warping (xy1 xy2 : List (ℤ × ℤ)) :
    Except PyError ENNReal :=
  if xy1.isEmpty ∧ xy2.isEmpty then
    .error (.valueError "input sequences must not both be empty")
  else
    .ok (dtw pointCost xy1 xy2)

/-- Modelled from the spec: the `_drift` module of line-assignment
strategies.  Each of the seven strategies consumes the fixation
coordinate array plus line geometry and produces a corrected coordinate
array; `warp` consumes word centers, the other six consume line
y-positions together with method-specific named numeric options
(`_drift` is not in the provided source; the spec leaves the algorithm
bodies undisclosed, so the module is kept abstract and its spec'd
contract is stated as `DriftModule.LengthPreserving`). -/
structure DriftModule where
  warp : List (ℤ × ℤ) → List (ℤ × ℤ) → List (ℤ × ℤ)
  chain : List (ℤ × ℤ) → List ℤ → List (String × ℚ) → List (ℤ × ℤ)
  cluster : List (ℤ × ℤ) → List ℤ → List (String × ℚ) → List (ℤ × ℤ)
  merge : List (ℤ × ℤ) → List ℤ → List (String × ℚ) → List (ℤ × ℤ)
  regress : List (ℤ × ℤ) → List ℤ → List (String × ℚ) → List (ℤ × ℤ)
  segment : List (ℤ × ℤ) → List ℤ → List (String × ℚ) → List (ℤ × ℤ)
  split : List (ℤ × ℤ) → List ℤ → List (String × ℚ) → List (ℤ × ℤ)

/-- The dynamic name lookup `_drift.__dict__[method]` for the six
non-warp strategies; the orchestrator only reaches it with a validated
method name, so the default arm is arbitrary. -/
def DriftModule.dispatch (d : DriftModule) (method : String) :
    List (ℤ × ℤ) → List ℤ → List (String × ℚ) → List (ℤ × ℤ) :=
  if method = "chain" then d.chain
  else if method = "cluster" then d.cluster
  else if method = "merge" then d.merge
  else if method = "regress" then d.regress
  else if method = "segment" then d.segment
  else if method = "split" then d.split
  else fun xy _ _ => xy

/-- The spec'd contract of every strategy: the output array has the same
length as the input fixation array (one corrected pair per input fixation,
no drops, no extras). -/
def DriftModule.LengthPreserving (d : DriftModule) : Prop :=
  (∀ xy wc, (d.warp xy wc).length = xy.length) ∧
  (∀ m xy lp kw, (d.dispatch m xy lp kw).length = xy.length)

/-- A concrete strategy module satisfying the contract (each strategy
returns the coordinates unchanged); used to instantiate universally
quantified theorems at concrete inputs. -/
def trivialDrift : DriftModule where
  warp := fun xy _ => xy
  chain := fun xy _ _ => xy
  cluster := fun xy _ _ => xy
  merge := fun xy _ _ => xy
  regress := fun xy _ _ => xy
  segment := fun xy _ _ => xy
  split := fun xy _ _ => xy

theorem trivialDrift_lengthPreserving : trivialDrift.LengthPreserving := by
  constructor
  · intro xy wc; rfl
  · intro m xy lp kw
    simp only [trivialDrift, DriftModule.dispatch]
    split_ifs <;> rfl

/-- The fixed set of supported method names checked by the orchestrator
(source lines 37–38). -/
def supportedMethods : List String :=
  ["chain", "cluster", "merge", "regress", "segment", "split", "warp"]

/-- Translation of `tools.snap_to_lines` (source lines 33–47) after the
type checks, parametrized by the `_drift` module: validate the method
name, extract the coordinate array excluding discarded fixations,
special-case single-row text by overwriting the y column with the sole
line position, otherwise dispatch to the selected strategy, and zip the
corrected coordinates back with the iterated fixations to build a new
sequence from `(x, y, duration)` tuples (fresh fixations, flag unset). -/
def snap_to_lines (d : DriftModule) (fs : FixationSequence) (tb : TextBlock)
    (method : String) (kwargs : List (String × ℚ)) :
    Except PyError FixationSequence :=
  if method ∉ supportedMethods then
    .error (.valueError
      "Supported methods are \"chain\", \"cluster\", \"merge\", \"regress\", \"segment\", \"split\", and \"warp\"")
  else
    let fixation_XY := fs.XYarray false
    let corrected_XY :=
      if tb.n_rows = 1 then
        fixation_XY.map (fun p => (p.1, tb.line_positions.headI))
      else if method = "warp" then
        d.warp fixation_XY tb.word_centers
      else
        d.dispatch method fixation_XY tb.line_positions kwargs
    .ok ⟨(fs.iter.zip corrected_XY).map
      (fun fp => ⟨fp.2.1, fp.2.2, fp.1.duration, false⟩)⟩

/-- State-passing rendering of `snap_to_lines`: the source only reads the
input sequence (`XYarray`, iteration) and never assigns into it, so the
threaded sequence state is returned unchanged alongside the result. -/
def snap_to_lines_state (d : DriftModule) (fs : FixationSequence)
    (tb : TextBlock) (method : String) (kwargs : List (String × ℚ)) :
    FixationSequence × Except PyError FixationSequence :=
  (fs, snap_to_lines d fs tb method kwargs)

/-- Translation of `tools.fixation_sequence_distance` (source lines 66–75)
after the type checks: the DTW cost of the two coordinate arrays
(extracted with the default, which does not request exclusion of
discarded items). -/
noncomputable def fixation_sequence_distance (s1 s2 : FixationSequence) :
    Except PyError ENNReal :=
  dynamic_time_warping (s1.XYarray true) (s2.XYarray true)

/-- A Python argument value as seen by an entry point: one of the two
collaborator types, or anything else.  Used to model the dynamic
`isinstance` checks of the source. -/
inductive PyVal where
  | fixseq (s : FixationSequence)
  | textblock (t : TextBlock)
  | other

/-- `isinstance(v, FixationSequence)`. -/
def PyVal.isFixSeq : PyVal → Bool
  | .fixseq _ => true
  | _ => false

/-- `isinstance(v, TextBlock)`. -/
def PyVal.isTextBlock : PyVal → Bool
  | .textblock _ => true
  | _ => false

/-- Whether an entry-point result is a type error. -/
def isTypeError {α : Type} : Except PyError α → Bool
  | .error (.typeError _) => true
  | _ => false

/-- Entry point `snap_to_lines` with the source's dynamic type checks
(source lines 33–36): first the fixation-sequence check, then the
text-block check, each failing with a type error before any computation. -/
def snap_to_lines_checked (d : DriftModule) (a b : PyVal) (method : String)
    (kwargs : List (String × ℚ)) : Except PyError FixationSequence :=
  match a with
  | .fixseq fs =>
      match b with
      | .textblock tb => snap_to_lines d fs tb method kwargs
      | _ => .error (.typeError "text_block should be of type eyekit.Text")
  | _ => .error (.typeError
      "fixation_sequence should be of type eyekit.FixationSequence")

/-- Entry point `discard_out_of_bounds_fixations` with the source's
dynamic type checks (source lines 57–60); on success the mutated
sequence is the returned state. -/
def discard_checked (a b : PyVal) (threshold : ℕ) :
    Except PyError FixationSequence :=
  match a with
  | .fixseq fs =>
      match b with
      | .textblock tb => .ok (discard_out_of_bounds_fixations fs tb threshold)
      | _ => .error (.typeError "text_block should be of type eyekit.Text")
  | _ => .error (.typeError
      "fixation_sequence should be of type eyekit.FixationSequence")

/-- Entry point `fixation_sequence_distance` with the source's dynamic
type check (source lines 72–73): a single combined check that both
arguments are fixation sequences. -/
noncomputable def fixation_sequence_distance_checked (a b : PyVal) :
    Except PyError ENNReal :=
  if a.isFixSeq && b.isFixSeq then
    match a, b with
    | .fixseq s1, .fixseq s2 => fixation_sequence_distance s1 s2
    | _, _ => .error (.typeError
        "fixation_sequence1 and fixation_sequence2 should be of type eyekit.FixationSequence")
  else
    .error (.typeError
      "fixation_sequence1 and fixation_sequence2 should be of type eyekit.FixationSequence")

/-! ### Concrete sample inputs used to instantiate the theorems -/

/-- A sequence of two live fixations. -/
def fsA : FixationSequence :=
  ⟨[⟨0, 0, 100, false⟩, ⟨5, 3, 50, false⟩]⟩

/-- A sequence whose first fixation is already discarded. -/
def fsB : FixationSequence :=
  ⟨[⟨0, 0, 100, true⟩, ⟨5, 5, 50, false⟩]⟩

/-- Another sequence with a discarded head, distinct durations. -/
def fsC : FixationSequence :=
  ⟨[⟨1, 1, 77, true⟩, ⟨2, 2, 33, false⟩]⟩

/-- A single-row text block with line y-position 10. -/
def tbA : TextBlock :=
  ⟨[10], [(5, 10)], [(0, 10), (5, 10)]⟩

/-- A text block with one character at the origin and one character 1000
units away. -/
def tbWide : TextBlock :=
  ⟨[0], [(0, 0), (1000, 0)], [(0, 0), (1000, 0)]⟩

/-! ### Claims -/

/-- Claim C1: the spec says a fixation is flagged exactly when its MINIMUM
distance to any character center exceeds the threshold, so a fixation
exactly at a character center is never flagged.  The source flags a
fixation as soon as ANY single character center is beyond the threshold,
contradicting its own docstring ("discard all fixations that do not fall
within some threshold of any character in the text").  Failing input: a
fixation at `(0, 0)`, sitting exactly at the first character's center, in
a text whose second character is 1000 units away, with the default
threshold 128.  The translation of the source flags it, while the
spec-mandated minimum-distance filter leaves it untouched; its distance to
the nearest character is 0. -/
theorem claim_C1_discard_flags_fixation_at_character_center :
    (discard_out_of_bounds_fixations ⟨[⟨0, 0, 100, false⟩]⟩ tbWide 128).fixations
      = [⟨0, 0, 100, true⟩] ∧
    (discard_out_of_bounds_fixations_spec ⟨[⟨0, 0, 100, false⟩]⟩ tbWide 128).fixations
      = [⟨0, 0, 100, false⟩] ∧
    sqDist (0, 0) ((0, 0) : ℤ × ℤ) = 0 := by
  refine ⟨?_, ?_, ?_⟩ <;> decide

/-- Claim C5: for every fixation sequence and text block, an unsupported
method name makes `snap_to_lines` fail with the value error from the
source, uniformly in the fixation data (the result does not depend on the
sequence contents), and the threaded input-sequence state is returned
unchanged. -/
theorem claim_C5_unknown_method_value_error (d : DriftModule)
    (fs : FixationSequence) (tb : TextBlock) (method : String)
    (kwargs : List (String × ℚ)) (h : method ∉ supportedMethods) :
    snap_to_lines_state d fs tb method kwargs =
      (fs, .error (.valueError
        "Supported methods are \"chain\", \"cluster\", \"merge\", \"regress\", \"segment\", \"split\", and \"warp\"")) := by
  simp only [snap_to_lines_state, snap_to_lines, if_pos h]

theorem claim_C5_witness :
    "bogus" ∉ supportedMethods ∧
    snap_to_lines_state trivialDrift fsA tbA "bogus" [] =
      (fsA, .error (.valueError
        "Supported methods are \"chain\", \"cluster\", \"merge\", \"regress\", \"segment\", \"split\", and \"warp\"")) :=
  ⟨by decide, claim_C5_unknown_method_value_error trivialDrift fsA tbA "bogus" []
    (by decide)⟩

/-- Claim C6: each entry point fails with a type error, and produces no
other effect (no successor state, no result), whenever an argument is not
of the expected collaborator type: `snap_to_lines` and
`discard_out_of_bounds_fixations` require a FixationSequence and a
TextBlock, `fixation_sequence_distance` requires two FixationSequences. -/
theorem claim_C6_type_errors :
    (∀ (d : DriftModule) (a b : PyVal) (method : String)
        (kwargs : List (String × ℚ)),
      a.isFixSeq = false ∨ b.isTextBlock = false →
      isTypeError (snap_to_lines_checked d a b method kwargs) = true) ∧
    (∀ (a b : PyVal) (threshold : ℕ),
      a.isFixSeq = false ∨ b.isTextBlock = false →
      isTypeError (discard_checked a b threshold) = true) ∧
    (∀ (a b : PyVal),
      a.isFixSeq = false ∨ b.isFixSeq = false →
      isTypeError (fixation_sequence_distance_checked a b) = true) := by
  refine ⟨?_, ?_, ?_⟩
  · intro d a b method kwargs h
    cases a <;> cases b <;>
      simp_all [PyVal.isFixSeq, PyVal.isTextBlock, snap_to_lines_checked,
        isTypeError]
  · intro a b threshold h
    cases a <;> cases b <;>
      simp_all [PyVal.isFixSeq, PyVal.isTextBlock, discard_checked, isTypeError]
  · intro a b h
    cases a <;> cases b <;>
      simp_all [PyVal.isFixSeq, fixation_sequence_distance_checked, isTypeError]

theorem claim_C6_witness :
    (PyVal.other.isFixSeq = false ∨ (PyVal.fixseq fsA).isTextBlock = false) ∧
    isTypeError (snap_to_lines_checked trivialDrift .other (.fixseq fsA) "warp" [])
      = true ∧
    isTypeError (discard_checked (.textblock tbA) .other 128) = true ∧
    isTypeError (fixation_sequence_distance_checked (.fixseq fsA) .other)
      = true := by
  refine ⟨Or.inl rfl, ?_, ?_, ?_⟩
  · exact claim_C6_type_errors.1 trivialDrift .other (.fixseq fsA) "warp" []
      (Or.inl rfl)
  · exact claim_C6_type_errors.2.1 (.textblock tbA) .other 128 (Or.inr rfl)
  · exact claim_C6_type_errors.2.2 (.fixseq fsA) .other (Or.inr rfl)

/-- Claim C7: `snap_to_lines` has no side effect on the input sequence —
the threaded sequence state after the call is the input itself, with every
position, duration and discard flag intact — and on success the output is
a newly constructed sequence of fresh fixations (every output fixation
carries a freshly-initialized, unset discard flag, having been built from
an `(x, y, duration)` tuple). -/
theorem claim_C7_no_mutation_fresh_output (d : DriftModule)
    (fs : FixationSequence) (tb : TextBlock) (method : String)
    (kwargs : List (String × ℚ)) :
    (snap_to_lines_state d fs tb method kwargs).1 = fs ∧
    (∀ out, snap_to_lines d fs tb method kwargs = .ok out →
      ∀ f ∈ out.fixations, f.discarded = false) := by
  refine ⟨rfl, ?_⟩
  intro out h f hf
  by_cases hm : method ∉ supportedMethods
  · simp [snap_to_lines, if_pos hm] at h
  · simp only [snap_to_lines, if_neg hm] at h
    cases h
    obtain ⟨p, hp, rfl⟩ := List.mem_map.mp hf
    rfl

theorem claim_C7_witness :
    (snap_to_lines_state trivialDrift fsA tbA "warp" []).1 = fsA ∧
    ∀ f ∈ (FixationSequence.mk
        [⟨0, 10, 100, false⟩, ⟨5, 10, 50, false⟩]).fixations,
      f.discarded = false :=
  ⟨(claim_C7_no_mutation_fresh_output trivialDrift fsA tbA "warp" []).1,
   (claim_C7_no_mutation_fresh_output trivialDrift fsA tbA "warp" []).2
     ⟨[⟨0, 10, 100, false⟩, ⟨5, 10, 50, false⟩]⟩ rfl⟩

theorem discardStep_x (tb : TextBlock) (t : ℕ) (f : Fixation) :
    (discardStep tb t f).x = f.x := by
  simp only [discardStep]; split_ifs <;> rfl

theorem discardStep_y (tb : TextBlock) (t : ℕ) (f : Fixation) :
    (discardStep tb t f).y = f.y := by
  simp only [discardStep]; split_ifs <;> rfl

theorem discardStep_duration (tb : TextBlock) (t : ℕ) (f : Fixation) :
    (discardStep tb t f).duration = f.duration := by
  simp only [discardStep]; split_ifs <;> rfl

theorem discardStep_discarded_of (tb : TextBlock) (t : ℕ) (f : Fixation)
    (h : f.discarded = true) : (discardStep tb t f).discarded = true := by
  simp [discardStep, h]

theorem discardStep_idem (tb : TextBlock) (t : ℕ) (f : Fixation) :
    discardStep tb t (discardStep tb t f) = discardStep tb t f := by
  by_cases hd : f.discarded
  · simp [discardStep, hd]
  · by_cases hc : tb.char_centers.any (fun c => farB (f.x, f.y) c t)
    · simp [discardStep, hd, hc]
    · simp [discardStep, hd, hc]

/-- Claim C8: the bounds filter never clears a discarded flag (any
fixation flagged before the pass is still flagged after it), it changes no
other state (every fixation's position and duration are untouched, and the
sequence length is kept), and re-running it with the same threshold is
idempotent: the second pass returns exactly the state the first pass
produced. -/
theorem claim_C8_discard_monotonic_idempotent (fs : FixationSequence)
    (tb : TextBlock) (threshold : ℕ) :
    discard_out_of_bounds_fixations
        (discard_out_of_bounds_fixations fs tb threshold) tb threshold =
      discard_out_of_bounds_fixations fs tb threshold ∧
    (discard_out_of_bounds_fixations fs tb threshold).fixations.length =
      fs.fixations.length ∧
    (∀ i : ℕ, (fs.fixations[i]?).map Fixation.discarded = some true →
      ((discard_out_of_bounds_fixations fs tb threshold).fixations[i]?).map
        Fixation.discarded = some true) ∧
    (∀ i : ℕ,
      ((discard_out_of_bounds_fixations fs tb threshold).fixations[i]?).map
        (fun f => (f.x, f.y, f.duration)) =
      (fs.fixations[i]?).map (fun f => (f.x, f.y, f.duration))) := by
  refine ⟨?_, ?_, ?_, ?_⟩
  · simp only [discard_out_of_bounds_fixations, List.map_map]
    congr 1
    apply List.map_congr_left
    intro f _
    exact discardStep_idem tb threshold f
  · simp [discard_out_of_bounds_fixations]
  · intro i h
    rw [discard_out_of_bounds_fixations, List.getElem?_map]
    cases hq : fs.fixations[i]? with
    | none => rw [hq] at h; simp at h
    | some f =>
        rw [hq] at h
        have hf : f.discarded = true := by simpa using h
        simpa using discardStep_discarded_of tb threshold f hf
  · intro i
    rw [discard_out_of_bounds_fixations, List.getElem?_map]
    cases fs.fixations[i]? with
    | none => rfl
    | some f =>
        simp [discardStep_x, discardStep_y, discardStep_duration]

theorem claim_C8_witness :
    discard_out_of_bounds_fixations
        (discard_out_of_bounds_fixations fsB tbA 128) tbA 128 =
      discard_out_of_bounds_fixations fsB tbA 128 ∧
    ((discard_out_of_bounds_fixations fsB tbA 128).fixations[0]?).map
      Fixation.discarded = some true :=
  ⟨(claim_C8_discard_monotonic_idempotent fsB tbA 128).1,
   (claim_C8_discard_monotonic_idempotent fsB tbA 128).2.2.1 0 (by decide)⟩

/-- Claim C10: if at least one character center of the text block lies
farther than the threshold from a fixation's position (in Euclidean
distance), then the bounds filter flags that fixation as discarded — this
is exactly the behaviour of the source's inner loop, which sets the flag
upon the first such character. -/
theorem claim_C10_any_far_char_discards (fs : FixationSequence)
    (tb : TextBlock) (threshold : ℕ) (i : ℕ) (f : Fixation)
    (hf : fs.fixations[i]? = some f)
    (h : ∃ c ∈ tb.char_centers, (threshold : ℝ) < distance (f.x, f.y) c) :
    ((discard_out_of_bounds_fixations fs tb threshold).fixations[i]?).map
      Fixation.discarded = some true := by
  simp only [discard_out_of_bounds_fixations, List.getElem?_map, hf,
    Option.map_some]
  obtain ⟨c, hc, hdist⟩ := h
  have hfar : farB (f.x, f.y) c threshold = true :=
    (distance_gt_iff_farB _ _ threshold).mp hdist
  by_cases hd : f.discarded
  · simp [discardStep, hd]
  · have hany : tb.char_centers.any (fun q => farB (f.x, f.y) q threshold)
        = true := List.any_eq_true.mpr ⟨c, hc, hfar⟩
    simp [discardStep, hd, hany]

theorem claim_C10_witness :
    ((discard_out_of_bounds_fixations fsA tbWide 128).fixations[0]?).map
      Fixation.discarded = some true :=
  claim_C10_any_far_char_discards fsA tbWide 128 0 ⟨0, 0, 100, false⟩ rfl
    ⟨(1000, 0), by decide,
      (distance_gt_iff_farB ((0 : ℤ), (0 : ℤ)) (1000, 0) 128).mpr (by decide)⟩

/-- Claim C4: whenever the text block has exactly one row, `snap_to_lines`
succeeds for every supported method and every fixation of the returned
sequence has the sole line's y-position as its y-coordinate — the
orchestrator overwrites the y column before (and instead of) any
algorithm dispatch. -/
theorem claim_C4_single_row_forces_line_y (d : DriftModule)
    (fs : FixationSequence) (tb : TextBlock) (method : String)
    (kwargs : List (String × ℚ)) (hm : method ∈ supportedMethods)
    (h1 : tb.n_rows = 1) :
    ∃ out, snap_to_lines d fs tb method kwargs = .ok out ∧
      ∀ f ∈ out.fixations, f.y = tb.line_positions.headI := by
  simp only [snap_to_lines]
  rw [if_neg (not_not_intro hm), if_pos h1]
  refine ⟨_, rfl, ?_⟩
  intro f hf
  obtain ⟨p, hp, rfl⟩ := List.mem_map.mp hf
  have hmem := (List.of_mem_zip hp).2
  obtain ⟨q, _, hq2⟩ := List.mem_map.mp hmem
  show p.2.2 = tb.line_positions.headI
  rw [← hq2]

theorem claim_C4_witness :
    ∃ out, snap_to_lines trivialDrift fsA tbA "cluster" [] = .ok out ∧
      ∀ f ∈ out.fixations, f.y = tbA.line_positions.headI :=
  claim_C4_single_row_forces_line_y trivialDrift fsA tbA "cluster" []
    (by decide) (by decide)

/-- Shape of a successful `snap_to_lines` call, for a strategy module
honouring the spec'd length contract: the output fixations correspond
one-to-one, positionally, with the non-discarded input fixations — same
count, same durations in the same order, and every output flag unset
exactly as every iterated input flag is unset. -/
theorem snap_ok_shape (d : DriftModule) (hd : d.LengthPreserving)
    (fs : FixationSequence) (tb : TextBlock) (method : String)
    (kwargs : List (String × ℚ)) (hm : method ∈ supportedMethods) :
    ∃ out, snap_to_lines d fs tb method kwargs = .ok out ∧
      out.fixations.length = fs.iter.length ∧
      out.fixations.map Fixation.duration = fs.iter.map Fixation.duration ∧
      out.fixations.map Fixation.discarded = fs.iter.map Fixation.discarded := by
  simp only [snap_to_lines]
  rw [if_neg (not_not_intro hm)]
  refine ⟨_, rfl, ?_, ?_, ?_⟩
  case' refine_1 => show (List.map _ (fs.iter.zip _)).length = fs.iter.length
  all_goals
    have hxy : (fs.XYarray false).length = fs.iter.length := by
      simp [FixationSequence.XYarray]
    have hlen :
        (if tb.n_rows = 1 then
            (fs.XYarray false).map (fun p => (p.1, tb.line_positions.headI))
          else if method = "warp" then d.warp (fs.XYarray false) tb.word_centers
          else d.dispatch method (fs.XYarray false) tb.line_positions kwargs).length
          = fs.iter.length := by
      split_ifs
      · simpa using hxy
      · rw [hd.1]; exact hxy
      · rw [hd.2]; exact hxy
  · simp [List.length_zip, hlen]
  · rw [List.map_map]
    have h1 : (Fixation.duration ∘ fun fp : Fixation × (ℤ × ℤ) =>
        Fixation.mk fp.2.1 fp.2.2 fp.1.duration false)
        = Fixation.duration ∘ Prod.fst := rfl
    rw [h1, ← List.map_map]
    rw [List.map_fst_zip _ _ (le_of_eq hlen.symm)]
  · rw [List.map_map]
    have h2 : (Fixation.discarded ∘ fun fp : Fixation × (ℤ × ℤ) =>
        Fixation.mk fp.2.1 fp.2.2 fp.1.duration false)
        = fun _ => false := rfl
    rw [h2]
    have h3 : fs.iter.map Fixation.discarded = fs.iter.map (fun _ => false) := by
      apply List.map_congr_left
      intro f hf
      have := List.of_mem_filter hf
      simpa using this
    rw [h3, List.map_const', List.map_const', List.length_zip, hlen,
      Nat.min_self]

/-- Claim C2 fails as stated: with an input sequence whose first fixation
is already discarded, `snap_to_lines` (here on a single-row text, where
the strategy is bypassed) returns a sequence of length 1 while the input
has length 2 — discarded fixations are excluded from the correction and
from the output. -/
theorem claim_C2_counterexample_discarded_input :
    snap_to_lines trivialDrift fsB tbA "warp" []
      = .ok ⟨[⟨5, 10, 50, false⟩]⟩ ∧
    (FixationSequence.mk [⟨5, 10, 50, false⟩]).fixations.length
      ≠ fsB.fixations.length :=
  ⟨rfl, by decide⟩

/-- Claim C2, amended: for every strategy module honouring the spec'd
length contract, every input and every supported method, the returned
sequence has one fixation per NON-DISCARDED input fixation, in the same
chronological order (witnessed by the positional duration
correspondence); in particular its length equals the input length
whenever no input fixation is discarded. -/
theorem claim_C2_snap_preserves_length_order (d : DriftModule)
    (hd : d.LengthPreserving) (fs : FixationSequence) (tb : TextBlock)
    (method : String) (kwargs : List (String × ℚ))
    (hm : method ∈ supportedMethods) :
    ∃ out, snap_to_lines d fs tb method kwargs = .ok out ∧
      out.fixations.length = fs.iter.length ∧
      out.fixations.map Fixation.duration = fs.iter.map Fixation.duration ∧
      ((∀ f ∈ fs.fixations, f.discarded = false) →
        out.fixations.length = fs.fixations.length) := by
  obtain ⟨out, hout, hlen, hdur, _⟩ := snap_ok_shape d hd fs tb method kwargs hm
  refine ⟨out, hout, hlen, hdur, ?_⟩
  intro hall
  rw [hlen, FixationSequence.iter, List.filter_eq_self.mpr]
  intro f hf
  simp [hall f hf]

theorem claim_C2_witness :
    ∃ out, snap_to_lines trivialDrift fsA tbA "warp" [] = .ok out ∧
      out.fixations.length = fsA.iter.length ∧
      out.fixations.map Fixation.duration = fsA.iter.map Fixation.duration ∧
      ((∀ f ∈ fsA.fixations, f.discarded = false) →
        out.fixations.length = fsA.fixations.length) :=
  claim_C2_snap_preserves_length_order trivialDrift
    trivialDrift_lengthPreserving fsA tbA "warp" [] (by decide)

/-- Claim C3 fails as stated: with an input whose first fixation is
discarded, the first fixation of the output carries the duration of the
SECOND input fixation (33), not of the input fixation at the same
position (77) — the correspondence is positional among non-discarded
fixations only. -/
theorem claim_C3_counterexample_duration_shift :
    snap_to_lines trivialDrift fsC tbA "chain" []
      = .ok ⟨[⟨2, 10, 33, false⟩]⟩ ∧
    (fsC.fixations[0]?).map Fixation.duration = some 77 ∧
    (33 : ℕ) ≠ 77 :=
  ⟨rfl, by decide, by decide⟩

/-- Claim C3, amended: for every strategy module honouring the spec'd
length contract, every input and every supported method, the i-th output
fixation carries exactly the duration (and the discard flag) of the i-th
NON-DISCARDED input fixation; only the spatial position may differ.  The
same-position correspondence with the raw input holds whenever no input
fixation is discarded. -/
theorem claim_C3_snap_preserves_durations (d : DriftModule)
    (hd : d.LengthPreserving) (fs : FixationSequence) (tb : TextBlock)
    (method : String) (kwargs : List (String × ℚ))
    (hm : method ∈ supportedMethods) :
    ∃ out, snap_to_lines d fs tb method kwargs = .ok out ∧
      ∀ i : ℕ,
        (out.fixations[i]?).map Fixation.duration
          = (fs.iter[i]?).map Fixation.duration ∧
        (out.fixations[i]?).map Fixation.discarded
          = (fs.iter[i]?).map Fixation.discarded := by
  obtain ⟨out, hout, _, hdur, hdis⟩ := snap_ok_shape d hd fs tb method kwargs hm
  refine ⟨out, hout, ?_⟩
  intro i
  constructor
  · have := congrArg (fun l => l[i]?) hdur
    simpa [List.getElem?_map] using this
  · have := congrArg (fun l => l[i]?) hdis
    simpa [List.getElem?_map] using this

theorem claim_C3_witness :
    ∃ out, snap_to_lines trivialDrift fsA tbA "segment" [] = .ok out ∧
      ∀ i : ℕ,
        (out.fixations[i]?).map Fixation.duration
          = (fsA.iter[i]?).map Fixation.duration ∧
        (out.fixations[i]?).map Fixation.discarded
          = (fsA.iter[i]?).map Fixation.discarded :=
  claim_C3_snap_preserves_durations trivialDrift
    trivialDrift_lengthPreserving fsA tbA "segment" [] (by decide)

theorem dtw_comm {α : Type} (c : α → α → ENNReal) (hc : ∀ a b, c a b = c b a) :
    ∀ l1 l2, dtw c l1 l2 = dtw c l2 l1 := by
  intro l1 l2
  induction l1, l2 using dtw.induct c with
  | case1 => rfl
  | case2 b bs => simp [dtw]
  | case3 a as => simp [dtw]
  | case4 a as b bs ih1 ih2 ih3 =>
      simp only [dtw]
      rw [hc a b, ih1, ih2, ih3,
        min_comm (dtw c (b :: bs) as) (dtw c bs (a :: as))]

theorem pointCost_comm (p q : ℤ × ℤ) : pointCost p q = pointCost q p := by
  simp [pointCost, distance, sqDist_comm p q]

/-- Claim C9: the DTW distance between fixation sequences is symmetric —
for every pair of sequences, `fixation_sequence_distance A B` equals
`fixation_sequence_distance B A` (also in the degenerate case where both
coordinate arrays are empty and the validation error is surfaced). -/
theorem claim_C9_distance_symmetric (s1 s2 : FixationSequence) :
    fixation_sequence_distance s1 s2 = fixation_sequence_distance s2 s1 := by
  simp only [fixation_sequence_distance, dynamic_time_warping]
  by_cases h : (s1.XYarray true).isEmpty ∧ (s2.XYarray true).isEmpty
  · rw [if_pos h, if_pos ⟨h.2, h.1⟩]
  · rw [if_neg h, if_neg (fun hh => h ⟨hh.2, hh.1⟩)]
    exact congrArg Except.ok (dtw_comm pointCost pointCost_comm _ _)

end Eyekit
